import Mathlib

/-!
Verification of the static-query content-rendering path of a Gatsby blog.
We shallowly embed the two Bio component variants
(src/components/bio.js, the gatsby-image variant, and the plain-image
variant) and the front matter of the Markdown content files, and prove the
specified properties about the rendered trees.
-/

/-- Style property values as they appear in the JSX style objects.
A value produced by the shared typography scale is kept symbolic:
the source calls rhythm with a rational argument, represented here as a
numerator/denominator pair (rhythm(2.5) is rhythm 5 2, rhythm(1 / 2) is
rhythm 1 2, rhythm(3) is rhythm 3 1). -/
inductive StyleVal where
  | str (s : String)
  | num (n : Nat)
  | rhythm (numr denr : Nat)
deriving DecidableEq

/-- Element tags occurring in the Bio renders. image stands for the
gatsby-image Image component, img for the plain HTML element. -/
inductive Tag where
  | div
  | img
  | image
  | p
  | strong
  | br
  | a
  | span
deriving DecidableEq

/-- The fixed-size image rendition resolved by the build pipeline
(childImageSharp.fixed of the BioQuery, requested at width 50, height 50). -/
structure Fixed where
  width : Nat
  height : Nat
deriving DecidableEq

/-- JSX attributes used by the Bio components. -/
inductive Attr where
  | href (v : String)
  | target (v : String)
  | rel (v : String)
  | alt (v : String)
  | src (v : String)
  | fixed (f : Fixed)
  | style (props : List (String × StyleVal))
  | imgStyle (props : List (String × StyleVal))
deriving DecidableEq

/-- Render trees: text nodes and elements with attributes and children. -/
inductive Html where
  | text (s : String)
  | elem (tag : Tag) (attrs : List Attr) (children : List Html)

/-- Attributes of a node (empty for text nodes). -/
def Html.attrs : Html → List Attr
  | .text _ => []
  | .elem _ as _ => as

mutual

/-- All elements with the given tag in the tree, in document order. -/
def Html.tagged (t : Tag) : Html → List Html
  | .text _ => []
  | .elem tag as cs =>
      (if tag = t then [Html.elem tag as cs] else []) ++ taggedList t cs

/-- All elements with the given tag in a forest, in document order. -/
def taggedList (t : Tag) : List Html → List Html
  | [] => []
  | c :: cs => Html.tagged t c ++ taggedList t cs

end

mutual

/-- All text fragments in the tree, in document order. -/
def Html.texts : Html → List String
  | .text s => [s]
  | .elem _ _ cs => textsList cs

/-- All text fragments in a forest, in document order. -/
def textsList : List Html → List String
  | [] => []
  | c :: cs => Html.texts c ++ textsList cs

end

/-- Social handles of the site metadata (gatsby-config siteMetadata.social). -/
structure Social where
  github : String
  email : String
deriving DecidableEq

/-- Resolved siteMetadata: author and social handles. -/
structure SiteMetadata where
  author : String
  social : Social
deriving DecidableEq

/-- The site node of the resolved BioQuery data. -/
structure Site where
  siteMetadata : SiteMetadata
deriving DecidableEq

/-- The childImageSharp node of the avatar file node. -/
structure ChildImageSharp where
  fixed : Fixed
deriving DecidableEq

/-- The avatar file node of the resolved BioQuery data. -/
structure AvatarFile where
  childImageSharp : ChildImageSharp
deriving DecidableEq

/-- Resolved data of the BioQuery in the gatsby-image variant:
avatar file with a fixed rendition, and the site metadata. -/
structure BioQueryData where
  avatar : AvatarFile
  site : Site
deriving DecidableEq

/-- Resolved data of the BioQuery in the plain-image variant:
site metadata only. -/
structure BioQueryDataPlain where
  site : Site
deriving DecidableEq

/-- The imported profile picture asset of the plain-image variant,
modelled as its source path. -/
def profilePic : String := "../../content/assets/profile-pic.jpg"

/-- The render tree built by the gatsby-image Bio variant
(src/components/bio.js) once author and social have been destructured
from the resolved data, with the fixed avatar rendition passed through. -/
def BioBody (author : String) (social : Social) (avatarFixed : Fixed) : Html :=
  .elem .div
    [.style [("display", .str "flex"), ("marginBottom", .rhythm 5 2)]]
    [ .elem .image
        [ .fixed avatarFixed,
          .alt author,
          .style [("marginRight", .rhythm 1 2), ("marginBottom", .num 0),
                  ("minWidth", .num 100), ("minHeight", .num 100),
                  ("borderRadius", .str "100%")],
          .imgStyle [("borderRadius", .str "50%")] ]
        [],
      .elem .p []
        [ .text "Written by ",
          .elem .strong [] [.text author],
          .text ", a software consultant from Boston, MA who works with React, React-Native, and Typescript. He can sometimes be found crossing enemy lines to work on the backend with Node, GraphQL, and Postgres.",
          .elem .br [] [],
          .elem .a
            [ .href ("https://github.com/" ++ social.github),
              .target "_blank",
              .rel "noopener noreferrer" ]
            [.text "Checkout his work on github"],
          .elem .span [] [.text " & "],
          .elem .a [.href ("mailto:" ++ social.email)] [.text "get in touch"] ] ]

/-- The gatsby-image Bio variant: destructures author and social from
data.site.siteMetadata, reads data.avatar.childImageSharp.fixed, and
returns the render tree. -/
def Bio (data : BioQueryData) : Html :=
  BioBody data.site.siteMetadata.author data.site.siteMetadata.social
    data.avatar.childImageSharp.fixed

/-- The render tree built by the plain-image Bio variant once author and
social have been destructured from the resolved data. -/
def BioPlainBody (author : String) (social : Social) : Html :=
  .elem .div
    [.style [("display", .str "flex"), ("marginBottom", .rhythm 5 2)]]
    [ .elem .img
        [ .src profilePic,
          .alt author,
          .style [("marginRight", .rhythm 1 2), ("marginBottom", .num 0),
                  ("width", .rhythm 3 1), ("height", .rhythm 3 1),
                  ("borderRadius", .str "50%")] ]
        [],
      .elem .p []
        [ .text "Personal blog by ",
          .elem .strong [] [.text author],
          .text ".",
          .elem .br [] [],
          .text "Musings and write-ups about coding stuff.",
          .elem .br [] [],
          .elem .a
            [ .href ("https://github.com/" ++ social.github),
              .target "_blank",
              .rel "noopener noreferrer" ]
            [.text "Checkout his work on github"],
          .elem .span [] [.text " & "],
          .elem .a [.href ("mailto:" ++ social.email)] [.text "get in touch"] ] ]

/-- The plain-image Bio variant: destructures author and social from
data.site.siteMetadata and returns the render tree. -/
def BioPlain (data : BioQueryDataPlain) : Html :=
  BioPlainBody data.site.siteMetadata.author data.site.siteMetadata.social

/-- First href attribute in an attribute list, if any. -/
def hrefOf : List Attr → Option String
  | [] => none
  | .href v :: _ => some v
  | _ :: rest => hrefOf rest

/-- First target attribute in an attribute list, if any. -/
def targetOf : List Attr → Option String
  | [] => none
  | .target v :: _ => some v
  | _ :: rest => targetOf rest

/-- First rel attribute in an attribute list, if any. -/
def relOf : List Attr → Option String
  | [] => none
  | .rel v :: _ => some v
  | _ :: rest => relOf rest

/-- First alt attribute in an attribute list, if any. -/
def altOf : List Attr → Option String
  | [] => none
  | .alt v :: _ => some v
  | _ :: rest => altOf rest

/-- First fixed-rendition attribute in an attribute list, if any. -/
def fixedOf : List Attr → Option Fixed
  | [] => none
  | .fixed f :: _ => some f
  | _ :: rest => fixedOf rest

/-- The style property list of the first style attribute, if any. -/
def styleOf : List Attr → List (String × StyleVal)
  | [] => []
  | .style props :: _ => props
  | _ :: rest => styleOf rest

/-- Value of a named style property of the element, if any. -/
def stylePropOf (as : List Attr) (name : String) : Option StyleVal :=
  ((styleOf as).filter (fun pr => pr.1 = name)).head?.map (fun pr => pr.2)

/-- The hyperlink elements of a render tree: attribute lists of the
anchor elements, in document order. -/
def anchors (h : Html) : List (List Attr) :=
  (h.tagged .a).map Html.attrs

/-- The image elements of a render tree (plain img elements and
gatsby-image Image components), in document order. -/
def images (h : Html) : List Html :=
  h.tagged .img ++ h.tagged .image

/-- The text blocks (paragraph elements) of a render tree. -/
def textBlocks (h : Html) : List Html :=
  h.tagged .p

/-- Whether a style value is produced by the typography scale. -/
def StyleVal.isRhythm : StyleVal → Bool
  | .rhythm _ _ => true
  | _ => false

/-- Whether the width and height of an element are style values produced
by the rhythm typography scale. -/
def dimsFromRhythm (as : List Attr) : Bool :=
  match stylePropOf as "width", stylePropOf as "height" with
  | some v, some w => v.isRhythm && w.isRhythm
  | _, _ => false

/-- Sample resolved data used in the specification scenario. -/
def janeData : BioQueryData :=
  { avatar := { childImageSharp := { fixed := { width := 50, height := 50 } } },
    site := { siteMetadata :=
      { author := "Jane Doe",
        social := { github := "janedoe", email := "jane@example.com" } } } }

/-- Front matter of a content file: the raw text standing to the right of
the title, date and description keys, exactly as written in the file
(quotes included when the file quotes the value). -/
structure FrontMatter where
  title : String
  date : String
  description : String
deriving DecidableEq

/-- Front matter of content/blog/react-and-typescript/index.md. -/
def reactAndTypescriptFm : FrontMatter :=
  { title := "React & Typescript",
    date := "\"2019-04-24\"",
    description := "Overview of using Typescript in your React project including setup, oddities, & some best practices." }

/-- Front matter of content/blog/react-native-dark-mode/index.md. -/
def reactNativeDarkModeFm : FrontMatter :=
  { title := "React-Native Dark Mode",
    date := "\"2019-11-18\"",
    description := "Is an app even really an app without dark mode? 🤔" }

/-- Front matter of content/blog/react-native-internationalization/index.md. -/
def reactNativeInternationalizationFm : FrontMatter :=
  { title := "React-Native Internationalization",
    date := "\"2019-11-19\"",
    description := "Is your app ready to go global? 🌎" }

/-- Front matter of content/blog/react-native-linting-and-testing/index.md. -/
def reactNativeLintingAndTestingFm : FrontMatter :=
  { title := "React-Native Linting & Testing",
    date := "\"2019-11-13\"",
    description := "Most people say testing isn\x27t sexy but wait till you see these snapshot tests 😉." }

/-- Front matter of content/blog/react-native-navigation-v5/index.md. -/
def reactNativeNavigationV5Fm : FrontMatter :=
  { title := "React-Native Navigation",
    date := "\"2019-11-19\"",
    description := "Redoing my original navigation post with the new react-navigation v5." }

/-- Front matter of content/blog/react-native-state-management/index.md. -/
def reactNativeStateManagementFm : FrontMatter :=
  { title := "React-Native State Management",
    date := "\"2019-08-31\"",
    description := "How to manage state in your React-Native app." }

/-- Front matter of content/blog/testing-and-ci-cd/index.md. -/
def testingAndCiCdFm : FrontMatter :=
  { title := "Testing & CI/CD in JavaScript Projects",
    date := "\"2019-09-6\"",
    description := "JavaScript testing best practices." }

/-- Front matter of content/blog/javascript-basics/javascript_basics.md. -/
def javascriptBasicsFm : FrontMatter :=
  { title := "JavaScript Basics",
    date := "\"2019-08-19\"",
    description := "A brief overview of some important JavaScript concepts." }

/-- Front matter of the react-native-firebase notifications post (the
content file whose path is unknown); its title line ends in a space. -/
def firebaseNotificationsFm : FrontMatter :=
  { title := "iOS and Android Notifications Using react-native-firebase ",
    date := "\"2019-09-26\"",
    description := "How to add push and local notifications to your React-Native app for both iOS and Android using the library react-native-firebase." }

/-- The content source collection: front matter of every Markdown content
file of the blog. -/
def contentFiles : List FrontMatter :=
  [ reactAndTypescriptFm,
    reactNativeDarkModeFm,
    reactNativeInternationalizationFm,
    reactNativeLintingAndTestingFm,
    reactNativeNavigationV5Fm,
    reactNativeStateManagementFm,
    testingAndCiCdFm,
    javascriptBasicsFm,
    firebaseNotificationsFm ]

/-- Whether a raw front-matter value is a quoted string. -/
def isQuoted (s : String) : Bool :=
  2 ≤ s.length && s.front = '"' && s.back = '"'

/-- Whether a character list spells a date of the exact form YYYY-MM-DD:
four digit year, two digit month, two digit day. -/
def strictDateChars : List Char → Bool
  | [y1, y2, y3, y4, h1, m1, m2, h2, d1, d2] =>
      y1.isDigit && y2.isDigit && y3.isDigit && y4.isDigit &&
      h1 = '-' && m1.isDigit && m2.isDigit &&
      h2 = '-' && d1.isDigit && d2.isDigit
  | _ => false

/-- Whether a character list spells a date with four digit year, two digit
month and one or two digit day, dash separated. -/
def relaxedDateChars : List Char → Bool
  | [y1, y2, y3, y4, h1, m1, m2, h2, d1] =>
      y1.isDigit && y2.isDigit && y3.isDigit && y4.isDigit &&
      h1 = '-' && m1.isDigit && m2.isDigit &&
      h2 = '-' && d1.isDigit
  | l => strictDateChars l

/-- The raw value with its first and last character removed (used to strip
the surrounding quotes of a quoted value). -/
def stripQuotes (s : String) : List Char :=
  (s.data.drop 1).dropLast

/-- The property the specification asserts of a front-matter block: title
quoted, date quoted and of the exact form YYYY-MM-DD, description quoted. -/
def fmSpecFormat (f : FrontMatter) : Bool :=
  isQuoted f.title &&
  (isQuoted f.date && strictDateChars (stripQuotes f.date)) &&
  isQuoted f.description

/-- The format the content files actually follow: title unquoted and
non-empty, date quoted with four digit year, two digit month and one or
two digit day, description unquoted and non-empty. -/
def fmActualFormat (f : FrontMatter) : Bool :=
  (!isQuoted f.title && !f.title.isEmpty) &&
  (isQuoted f.date && relaxedDateChars (stripQuotes f.date)) &&
  (!isQuoted f.description && !f.description.isEmpty)

/-- siteMetadata whose fields may be absent, used to express that the
component itself never checks for their presence. -/
structure SiteMetadataOpt where
  author : Option String
  social : Option Social
deriving DecidableEq

/-- Site node over possibly-partial metadata. -/
structure SiteOpt where
  siteMetadata : SiteMetadataOpt
deriving DecidableEq

/-- BioQuery data over possibly-partial metadata. -/
structure BioQueryDataOpt where
  avatar : AvatarFile
  site : SiteOpt
deriving DecidableEq

/-- The destructuring of author and social from data.site.siteMetadata,
over possibly-partial data: it succeeds exactly when both fields are
present, and is the only field access that could fail in the render. -/
def destructureMetadata (d : BioQueryDataOpt) : Option (String × Social) :=
  match d.site.siteMetadata.author, d.site.siteMetadata.social with
  | some author, some social => some (author, social)
  | _, _ => none

/-- The gatsby-image Bio render over possibly-partial data: field access
followed by the unconditional render body; the component contains no
validation, fallback or error-rendering branch of its own. -/
def BioChecked (d : BioQueryDataOpt) : Option Html :=
  (destructureMetadata d).map
    (fun pr => BioBody pr.1 pr.2 d.avatar.childImageSharp.fixed)

/-- Sample plain-variant data matching the scenario metadata. -/
def janePlainData : BioQueryDataPlain :=
  { site := { siteMetadata :=
      { author := "Jane Doe",
        social := { github := "janedoe", email := "jane@example.com" } } } }

/-- Sample possibly-partial data carrying both metadata fields. -/
def janeOptData : BioQueryDataOpt :=
  { avatar := { childImageSharp := { fixed := { width := 50, height := 50 } } },
    site := { siteMetadata :=
      { author := some "Jane Doe",
        social := some { github := "janedoe", email := "jane@example.com" } } } }

/-- Claim C1: for every resolved BioQuery data object whose social.github
handle is non-empty, the profile hyperlink of the rendered Bio output has
href exactly the github base URL concatenated with the handle, opens in a
new browsing context via target equal to blank, and carries rel noopener
noreferrer. -/
theorem C1_profile_link (d : BioQueryData)
    (h : d.site.siteMetadata.social.github ≠ "") :
    ∃ pl, (anchors (Bio d))[0]? = some pl ∧
      hrefOf pl = some ("https://github.com/" ++ d.site.siteMetadata.social.github) ∧
      targetOf pl = some "_blank" ∧
      relOf pl = some "noopener noreferrer" :=
  ⟨_, rfl, rfl, rfl, rfl⟩

/-- Witness for C1 at the scenario data. -/
theorem C1_profile_link_witness :
    janeData.site.siteMetadata.social.github ≠ "" ∧
    (∃ pl, (anchors (Bio janeData))[0]? = some pl ∧
      hrefOf pl = some ("https://github.com/" ++ janeData.site.siteMetadata.social.github) ∧
      targetOf pl = some "_blank" ∧
      relOf pl = some "noopener noreferrer") :=
  ⟨by decide, C1_profile_link janeData (by decide)⟩

/-- Claim C2: for every resolved BioQuery data object whose social.email
is non-empty, the contact hyperlink of the rendered Bio output has href
exactly the mailto scheme concatenated with the email address. -/
theorem C2_contact_link (d : BioQueryData)
    (h : d.site.siteMetadata.social.email ≠ "") :
    ∃ cl, (anchors (Bio d))[1]? = some cl ∧
      hrefOf cl = some ("mailto:" ++ d.site.siteMetadata.social.email) :=
  ⟨_, rfl, rfl⟩

/-- Witness for C2 at the scenario data. -/
theorem C2_contact_link_witness :
    janeData.site.siteMetadata.social.email ≠ "" ∧
    (∃ cl, (anchors (Bio janeData))[1]? = some cl ∧
      hrefOf cl = some ("mailto:" ++ janeData.site.siteMetadata.social.email)) :=
  ⟨by decide, C2_contact_link janeData (by decide)⟩

/-- Claim C3: the render output is a pure function of the resolved query
data: rendering twice with identical data yields identical output markup,
for both variants; the embedding is a total function of the data, with no
mutable state, timers or subscriptions. -/
theorem C3_pure_render (d1 d2 : BioQueryData) (p1 p2 : BioQueryDataPlain)
    (h : d1 = d2) (hp : p1 = p2) :
    Bio d1 = Bio d2 ∧ BioPlain p1 = BioPlain p2 := by
  subst h
  subst hp
  exact ⟨rfl, rfl⟩

/-- Witness for C3 at the scenario data. -/
theorem C3_pure_render_witness :
    janeData = janeData ∧ janePlainData = janePlainData ∧
    (Bio janeData = Bio janeData ∧ BioPlain janePlainData = BioPlain janePlainData) :=
  ⟨rfl, rfl, C3_pure_render janeData janeData janePlainData janePlainData rfl rfl⟩

/-- Claim C4: at the scenario input with author Jane Doe, github handle
janedoe and email jane at example.com, the output contains the text Jane
Doe, a hyperlink to the janedoe github page opening in a new browsing
context, and a mailto hyperlink to the email address. -/
theorem C4_scenario :
    "Jane Doe" ∈ (Bio janeData).texts ∧
    (∃ l ∈ anchors (Bio janeData),
      hrefOf l = some "https://github.com/janedoe" ∧ targetOf l = some "_blank") ∧
    (∃ l ∈ anchors (Bio janeData), hrefOf l = some "mailto:jane@example.com") := by
  decide

/-- Claim C5: a github handle containing a URL-reserved character such as a
hyphen passes through to the profile href unescaped: the href is the
github base URL followed character for character by the handle, so the
path segment is the handle verbatim. -/
theorem C5_handle_verbatim (d : BioQueryData)
    (h : d.site.siteMetadata.social.github.data.contains '-' = true) :
    ∃ u, hrefOf ((anchors (Bio d))[0]?.getD []) = some u ∧
      u.data.take ("https://github.com/".length) = ("https://github.com/").data ∧
      u.data.drop ("https://github.com/".length) = d.site.siteMetadata.social.github.data := by
  refine ⟨"https://github.com/" ++ d.site.siteMetadata.social.github, rfl, ?_, ?_⟩
  · rw [String.data_append]
    exact List.take_left _ _
  · rw [String.data_append]
    exact List.drop_left _ _

/-- Witness for C5 at a hyphenated handle. -/
theorem C5_handle_verbatim_witness :
    (BioQueryData.mk ⟨⟨⟨50, 50⟩⟩⟩
        ⟨⟨"Jane Doe", ⟨"jane-doe", "jane@example.com"⟩⟩⟩).site.siteMetadata.social.github.data.contains '-' = true ∧
    (∃ u, hrefOf ((anchors (Bio (BioQueryData.mk ⟨⟨⟨50, 50⟩⟩⟩
        ⟨⟨"Jane Doe", ⟨"jane-doe", "jane@example.com"⟩⟩⟩)))[0]?.getD []) = some u ∧
      u.data.take ("https://github.com/".length) = ("https://github.com/").data ∧
      u.data.drop ("https://github.com/".length)
        = (BioQueryData.mk ⟨⟨⟨50, 50⟩⟩⟩
            ⟨⟨"Jane Doe", ⟨"jane-doe", "jane@example.com"⟩⟩⟩).site.siteMetadata.social.github.data) :=
  ⟨by decide, C5_handle_verbatim _ (by decide)⟩

/-- Claim C6 counterexample: at the scenario data, the gatsby-image Bio
variant renders exactly one image element, and its dimensions are not
derived from the rhythm scale: its style has no width or height property
at all, it carries the fixed 50 by 50 rendition of the query and numeric
minWidth and minHeight of 100 pixels. -/
theorem C6_counterexample :
    (images (Bio janeData)).map (fun i => dimsFromRhythm i.attrs) = [false] ∧
    (images (Bio janeData)).map (fun i => stylePropOf i.attrs "width") = [none] ∧
    (images (Bio janeData)).map (fun i => stylePropOf i.attrs "height") = [none] ∧
    (images (Bio janeData)).map (fun i => fixedOf i.attrs) = [some ⟨50, 50⟩] ∧
    (images (Bio janeData)).map (fun i => stylePropOf i.attrs "minWidth")
      = [some (.num 100)] := by
  decide

/-- Claim C6 amended: for every resolved data object, each Bio variant
renders exactly one image element and exactly one text block containing
exactly two hyperlinks; in the plain-image variant the image's width and
height are rhythm values, while in the gatsby-image variant the image is
sized by the query's fixed rendition together with numeric minWidth and
minHeight of 100, only its margins being derived from rhythm. -/
theorem C6_amended_structure (d : BioQueryData) (d2 : BioQueryDataPlain) :
    (images (Bio d)).map (fun i => fixedOf i.attrs)
      = [some d.avatar.childImageSharp.fixed] ∧
    (images (Bio d)).map (fun i => stylePropOf i.attrs "minWidth")
      = [some (.num 100)] ∧
    (images (Bio d)).map (fun i => stylePropOf i.attrs "minHeight")
      = [some (.num 100)] ∧
    (images (Bio d)).map (fun i => stylePropOf i.attrs "marginRight")
      = [some (.rhythm 1 2)] ∧
    (textBlocks (Bio d)).map (fun b => (anchors b).length) = [2] ∧
    (images (BioPlain d2)).map (fun i => dimsFromRhythm i.attrs) = [true] ∧
    (images (BioPlain d2)).map (fun i => stylePropOf i.attrs "width")
      = [some (.rhythm 3 1)] ∧
    (images (BioPlain d2)).map (fun i => stylePropOf i.attrs "height")
      = [some (.rhythm 3 1)] ∧
    (textBlocks (BioPlain d2)).map (fun b => (anchors b).length) = [2] :=
  ⟨rfl, rfl, rfl, rfl, rfl, rfl, rfl, rfl, rfl⟩

/-- Claim C7 counterexample: the testing-and-ci-cd content file belongs to
the collection and its front matter violates the claimed format on every
field: the title is not quoted, the quoted date body 2019-09-6 is not of
the exact form YYYY-MM-DD, and the description is not quoted. -/
theorem C7_counterexample :
    testingAndCiCdFm ∈ contentFiles ∧
    fmSpecFormat testingAndCiCdFm = false ∧
    isQuoted testingAndCiCdFm.title = false ∧
    strictDateChars (stripQuotes testingAndCiCdFm.date) = false ∧
    isQuoted testingAndCiCdFm.description = false := by
  decide

set_option maxRecDepth 40000 in
/-- Claim C7 amended: every content file of the collection begins with a
front-matter block whose title is an unquoted non-empty string, whose date
is a quoted string with four digit year, two digit month and one or two
digit day, and whose description is an unquoted non-empty string. -/
theorem C7_amended_format : contentFiles.all fmActualFormat = true := by
  decide

/-- Claim C8: the Bio component performs no validation and contains no
fallback or error-rendering branch: whenever the resolved data carries the
author and social fields, the destructuring succeeds and the render
returns exactly the unconditional render body, so no error path is
reachable at render time. -/
theorem C8_no_error_path (d : BioQueryDataOpt) (author : String) (social : Social)
    (ha : d.site.siteMetadata.author = some author)
    (hs : d.site.siteMetadata.social = some social) :
    BioChecked d = some (BioBody author social d.avatar.childImageSharp.fixed) := by
  simp [BioChecked, destructureMetadata, ha, hs]

/-- Witness for C8 at complete sample data. -/
theorem C8_no_error_path_witness :
    janeOptData.site.siteMetadata.author = some "Jane Doe" ∧
    janeOptData.site.siteMetadata.social
      = some { github := "janedoe", email := "jane@example.com" } ∧
    BioChecked janeOptData
      = some (BioBody "Jane Doe" { github := "janedoe", email := "jane@example.com" }
          janeOptData.avatar.childImageSharp.fixed) :=
  ⟨rfl, rfl, C8_no_error_path janeOptData "Jane Doe"
      { github := "janedoe", email := "jane@example.com" } rfl rfl⟩

/-- Claim C9: for every site metadata object (and any avatar rendition),
the two Bio variants render the same two hyperlinks: equal profile hrefs
carrying target blank and rel noopener noreferrer, and equal contact
hrefs carrying neither attribute. -/
theorem C9_variants_links_agree (md : SiteMetadata) (av : AvatarFile) :
    anchors (Bio { avatar := av, site := { siteMetadata := md } })
      = anchors (BioPlain { site := { siteMetadata := md } }) ∧
    (anchors (Bio { avatar := av, site := { siteMetadata := md } })).map hrefOf
      = [some ("https://github.com/" ++ md.social.github),
         some ("mailto:" ++ md.social.email)] ∧
    (anchors (Bio { avatar := av, site := { siteMetadata := md } })).map targetOf
      = [some "_blank", none] ∧
    (anchors (Bio { avatar := av, site := { siteMetadata := md } })).map relOf
      = [some "noopener noreferrer", none] :=
  ⟨rfl, rfl, rfl, rfl⟩

/-- Claim C10: in every render of either Bio variant, the avatar image
element's alt text equals the author string of the resolved metadata. -/
theorem C10_alt_is_author (d : BioQueryData) (d2 : BioQueryDataPlain) :
    (images (Bio d)).map (fun i => altOf i.attrs)
      = [some d.site.siteMetadata.author] ∧
    (images (BioPlain d2)).map (fun i => altOf i.attrs)
      = [some d2.site.siteMetadata.author] :=
  ⟨rfl, rfl⟩
